import Mathlib

/-!
Shallow embedding of the Architecture Portfolio backend (src/main.py):
document values, the document serialization boundary, identifier format
validation, the pydantic Work schema, and the HTTP endpoints.  The
document store gateway (database.py) is not under src/; the operations
the endpoints rely on are modelled from the spec where noted.
-/

namespace Portfolio

/-- Scalar BSON-style values appearing in documents of this service:
native ObjectId values (carrying their canonical hex string), strings,
integers and null. -/
inductive BScalar where
  | oid (s : String)
  | str (s : String)
  | int (n : Int)
  | null
deriving DecidableEq

/-- A document field value: a scalar or an array of scalars.  Work
documents stored by this service hold string, int and null fields, a
string array gallery, and the native identifier field. -/
inductive BVal where
  | scalar (v : BScalar)
  | arr (xs : List BScalar)
deriving DecidableEq

/-- A document: an association list with the key semantics of a Python
dict (unique keys, insertion order preserved). -/
abbrev Doc := List (String × BVal)

/-- Python d.get(k): the value at key k if present. -/
def dget (d : Doc) (k : String) : Option BVal :=
  (d.find? (fun kv => kv.1 == k)).map (fun kv => kv.2)

/-- Replace the entry at key k by (k, v), leaving other entries
unchanged. -/
def repKV (k : String) (v : BVal) (kv : String × BVal) : String × BVal :=
  if kv.1 == k then (k, v) else kv

/-- Python d[k] = v: replace in place when the key is present, append
otherwise. -/
def dset (d : Doc) (k : String) (v : BVal) : Doc :=
  if (d.find? (fun kv => kv.1 == k)).isSome then d.map (repKV k v)
  else d ++ [(k, v)]

/-- Python d.pop(k): remove the key. -/
def dpop (d : Doc) (k : String) : Doc :=
  d.filter (fun kv => !(kv.1 == k))

/-- Python str() on a scalar document value; str(ObjectId) is its
canonical hex string. -/
def pyStrScalar : BScalar → String
  | .oid s => s
  | .str s => s
  | .int n => toString n
  | .null => "None"

/-- Python str() on a document value (the array rendering is only
reached for documents whose native identifier field holds an array,
which never happens for documents of this service). -/
def pyStrVal : BVal → String
  | .scalar v => pyStrScalar v
  | .arr xs => "[" ++ String.intercalate ", " (xs.map pyStrScalar) ++ "]"

/-- One element of the conversion loop of serialize_doc: an ObjectId is
rendered to its string form, everything else is left unchanged. -/
def convScalar : BScalar → BScalar
  | .oid s => .str s
  | v => v

/-- The body of the per-field conversion loop of serialize_doc
(src/main.py lines 41-45): a top-level ObjectId becomes its string, a
list is converted element-wise. -/
def convertVal : BVal → BVal
  | .scalar v => .scalar (convScalar v)
  | .arr xs => .arr (xs.map convScalar)

/-- serialize_doc (src/main.py lines 34-46): pop the native _id field
(when present and not None) and re-expose it as the string field id,
then convert any remaining ObjectId values, including element-wise
inside arrays. -/
def serialize_doc (doc : Doc) : Doc :=
  if doc.isEmpty then doc
  else
    let d :=
      match dget doc "_id" with
      | some v =>
        if v = BVal.scalar .null then doc
        else dset (dpop doc "_id") "id" (.scalar (.str (pyStrVal v)))
      | none => doc
    d.map (fun kv => (kv.1, convertVal kv.2))

/-- Membership in the hexadecimal digit alphabet accepted by the
ObjectId string format. -/
def isHexChar (c : Char) : Bool :=
  (('0' ≤ c && c ≤ '9') || ('a' ≤ c && c ≤ 'f') || ('A' ≤ c && c ≤ 'F'))

namespace ObjectId

/-- bson ObjectId.is_valid on strings (src/main.py line 29 and line
127): a valid identifier string is exactly 24 hexadecimal characters. -/
def is_valid (s : String) : Bool :=
  s.length == 24 && s.data.all isHexChar

end ObjectId

/-- One hexadecimal digit character. -/
def hexDigit (n : Nat) : Char :=
  if n < 10 then Char.ofNat (48 + n) else Char.ofNat (87 + n)

/-- k hexadecimal digit characters encoding n. -/
def natToHexAux : Nat → Nat → List Char
  | 0, _ => []
  | k+1, n => hexDigit (n % 16) :: natToHexAux k (n / 16)

/-- The canonical 24-hex-character identifier string assigned by the
modelled store to its n-th inserted document. -/
def natToHex24 (n : Nat) : String :=
  ⟨natToHexAux 24 n⟩

/-- The pydantic WorkBase/WorkCreate schema (src/main.py lines 50-60):
required title, optional description, year, location and cover image,
gallery defaulting to the empty list. -/
structure WorkCreate where
  title : String
  description : Option String
  year : Option Int
  location : Option String
  cover_image : Option String
  gallery : Option (List String)
deriving DecidableEq

/-- Validate one optional string field of the request body: absent or
null yields none, a string is accepted, anything else is a validation
error. -/
def optStrField (body : Doc) (k : String) : Option (Option String) :=
  match dget body k with
  | none => some none
  | some (.scalar .null) => some none
  | some (.scalar (.str s)) => some (some s)
  | some _ => none

/-- Pydantic validation of a create request body against WorkCreate:
title is a required string; year, when present and non-null, must be an
integer with 1900 <= year <= 2100 (Field ge/le, src/main.py line 53);
gallery defaults to the empty list.  Returns none on a validation
error, in which case the framework rejects the request before the
handler (and hence the store) is reached. -/
def validateWorkCreate (body : Doc) : Option WorkCreate := do
  let title ← match dget body "title" with
    | some (.scalar (.str s)) => some s
    | _ => none
  let description ← optStrField body "description"
  let year ← match dget body "year" with
    | none => some none
    | some (.scalar .null) => some none
    | some (.scalar (.int n)) =>
        if 1900 ≤ n ∧ n ≤ 2100 then some (some n) else none
    | some _ => none
  let location ← optStrField body "location"
  let cover_image ← optStrField body "cover_image"
  let gallery ← match dget body "gallery" with
    | none => some (some [])
    | some (.scalar .null) => some none
    | some (.arr xs) =>
        (xs.mapM (fun x => match x with | .str s => some s | _ => none) :
          Option (List String)).map some
    | some _ => none
  some ⟨title, description, year, location, cover_image, gallery⟩

/-- Rendering of an optional string field by model_dump. -/
def optB : Option String → BVal
  | some s => .scalar (.str s)
  | none => .scalar .null

/-- Rendering of the optional year field by model_dump. -/
def optIntB : Option Int → BVal
  | some n => .scalar (.int n)
  | none => .scalar .null

/-- Rendering of the gallery field by model_dump. -/
def galleryB : Option (List String) → BVal
  | some l => .arr (l.map BScalar.str)
  | none => .scalar .null

/-- payload.model_dump() (src/main.py line 109): the document of domain
fields handed to the store; it carries no identifier field. -/
def WorkCreate.model_dump (w : WorkCreate) : Doc :=
  [("title", .scalar (.str w.title)),
   ("description", optB w.description),
   ("year", optIntB w.year),
   ("location", optB w.location),
   ("cover_image", optB w.cover_image),
   ("gallery", galleryB w.gallery)]

/-- The state of the work collection of the document store: the
documents in insertion order, and a counter from which the store derives
the next fresh identifier. -/
structure Store where
  counter : Nat
  work : List Doc
deriving DecidableEq

/-- Modelled from the spec: create_document lives in database.py, which
is not under src/.  Spec section 4.1: insert(collectionName,
documentFields) accepts a mapping of field name to value for a new
record (no identifier included) and returns a newly assigned unique
identifier; the store writes the document with its native _id field. -/
def create_document (s : Store) (fields : Doc) : String × Store :=
  (natToHex24 s.counter,
   ⟨s.counter + 1,
    s.work ++ [("_id", .scalar (.oid (natToHex24 s.counter))) :: fields]⟩)

/-- Modelled from the spec: get_documents lives in database.py, which is
not under src/.  Spec section 4.1: find(collectionName, filter, limit)
returns the documents matching the filter (the endpoint always passes
the empty filter, matching all), capped at limit, in store-native
order. -/
def get_documents (s : Store) (limit : Int) : List Doc :=
  s.work.take limit.toNat

/-- db["work"].find_one on an identifier filter (src/main.py lines 111
and 129): the first document whose _id equals the given ObjectId, if
any. -/
def find_one (s : Store) (idStr : String) : Option Doc :=
  s.work.find? (fun d => dget d "_id" == some (.scalar (.oid idStr)))

/-- An HTTP endpoint outcome: a success body, or an error status with
its detail string (HTTPException / framework validation error). -/
inductive ApiResult (α : Type) where
  | ok (body : α)
  | error (status : Nat) (detail : String)
deriving DecidableEq

/-- create_work (src/main.py lines 105-112): 500 when the store handle
is absent; otherwise insert the dumped payload, re-fetch the inserted
document by the assigned identifier, and return it serialized.  In the
source a failed re-fetch would flow None through serialize_doc and fail
the response-model check; that branch is rendered as a server error
(it is proved unreachable below). -/
def create_work (db : Option Store) (payload : WorkCreate) :
    ApiResult Doc × Option Store :=
  match db with
  | none => (.error 500 "Database not available", none)
  | some s =>
    let r := create_document s payload.model_dump
    match find_one r.2 r.1 with
    | some inserted => (.ok (serialize_doc inserted), some r.2)
    | none => (.error 500 "Internal Server Error", some r.2)

/-- The POST /api/works endpoint including the framework validation
step: an invalid body is rejected with a validation error before the
handler runs, so the store is left untouched. -/
def post_works (db : Option Store) (body : Doc) :
    ApiResult Doc × Option Store :=
  match validateWorkCreate body with
  | none => (.error 422 "Validation Error", db)
  | some payload => create_work db payload

/-- list_works (src/main.py lines 115-120): 500 when the store handle is
absent; otherwise the documents returned by the gateway (default limit
100 when the query parameter is absent), each serialized. -/
def list_works (db : Option Store) (limit : Option Int) :
    ApiResult (List Doc) :=
  match db with
  | none => .error 500 "Database not available"
  | some s => .ok ((get_documents s (limit.getD 100)).map serialize_doc)

/-- The outcome of the get-by-id endpoint together with whether the
store was queried on the way. -/
structure GetResult where
  response : ApiResult Doc
  storeQueried : Bool
deriving DecidableEq

/-- get_work (src/main.py lines 123-132): store-availability check
first (500), then identifier-format validation (400, store untouched),
then the store query: a missing (or falsy, i.e. empty) document is 404,
otherwise the document is returned serialized. -/
def get_work (db : Option Store) (work_id : String) : GetResult :=
  match db with
  | none => ⟨.error 500 "Database not available", false⟩
  | some s =>
    if !(ObjectId.is_valid work_id) then ⟨.error 400 "Invalid id", false⟩
    else
      match find_one s work_id with
      | none => ⟨.error 404 "Not found", true⟩
      | some doc =>
        if doc.isEmpty then ⟨.error 404 "Not found", true⟩
        else ⟨.ok (serialize_doc doc), true⟩

/-- A probe-able store handle as seen by the health endpoint: its
logical name attribute and the outcome of list_collection_names (a
collection list, or a raised exception rendered by its message). -/
structure StoreProbe where
  name : Option String
  listCollectionNames : Except String (List String)

/-- The environment the health endpoint probes: a possible exception
raised at the start of the probe (caught by the outer handler), the
optional store handle, and whether the DATABASE_URL configuration value
is set. -/
structure HealthEnv where
  probeExc : Option String
  db : Option StoreProbe
  databaseUrlSet : Bool

/-- The diagnostic response body built by the health endpoint. -/
structure HealthResponse where
  backend : String
  database : String
  database_url : Option String
  database_name : Option String
  connection_status : String
  collections : List String
deriving DecidableEq

/-- test_database (src/main.py lines 73-102): best-effort probe of the
store; every failure is caught and rendered into the database status
string, the collection listing is truncated to 10 names, and the
endpoint always answers 200 with the response body. -/
def test_database (env : HealthEnv) : ApiResult HealthResponse :=
  match env.probeExc with
  | some e =>
    .ok ⟨"✅ Running", "❌ Error: " ++ e.take 50, none, none, "Not Connected", []⟩
  | none =>
    match env.db with
    | none =>
      .ok ⟨"✅ Running", "⚠️ Available but not initialized", none, none,
           "Not Connected", []⟩
    | some p =>
      let urlStr := if env.databaseUrlSet then "✅ Set" else "❌ Not Set"
      let nameStr :=
        match p.name with
        | some nm => if nm = "" then "❌ Unknown" else nm
        | none => "❌ Unknown"
      match p.listCollectionNames with
      | .ok cs =>
        .ok ⟨"✅ Running", "✅ Connected & Working", some urlStr, some nameStr,
             "Connected", cs.take 10⟩
      | .error e =>
        .ok ⟨"✅ Running", "⚠️ Connected but error: " ++ e.take 50,
             some urlStr, some nameStr, "Not Connected", []⟩

/-! ### Dictionary and conversion lemmas -/


lemma convScalar_str (s : String) : convScalar (.str s) = .str s := rfl

lemma map_convScalar_str (l : List String) :
    (l.map BScalar.str).map convScalar = l.map BScalar.str := by
  induction l with
  | nil => rfl
  | cons a l ih => simp only [List.map_cons, convScalar_str, ih]

lemma dget_nil (k : String) : dget [] k = none := rfl

lemma dget_cons (k1 : String) (v : BVal) (d : Doc) (k : String) :
    dget ((k1, v) :: d) k = if k1 == k then some v else dget d k := by
  cases h : k1 == k <;> simp [dget, h]

lemma dget_append (d1 d2 : Doc) (k : String) :
    dget (d1 ++ d2) k =
      match dget d1 k with
      | some v => some v
      | none => dget d2 k := by
  unfold dget
  rw [List.find?_append]
  cases h : d1.find? (fun kv => kv.1 == k) <;> simp [h]

lemma dget_mapConv (d : Doc) (k : String) :
    dget (d.map (fun kv => (kv.1, convertVal kv.2))) k
      = (dget d k).map convertVal := by
  induction d with
  | nil => rfl
  | cons kv d ih =>
    obtain ⟨k1, v⟩ := kv
    cases h : k1 == k <;> simp [dget_cons, h, ih]

lemma dget_dpop_self (d : Doc) (k : String) :
    dget (dpop d k) k = none := by
  have hf : (d.filter (fun kv => !(kv.1 == k))).find? (fun kv => kv.1 == k) = none := by
    rw [List.find?_eq_none]
    intro x hx
    have hx2 := (List.mem_filter.mp hx).2
    simp at hx2
    simp [hx2]
  simp [dget, dpop, hf]

lemma dpop_of_dget_none (d : Doc) (k : String) (h : dget d k = none) :
    dpop d k = d := by
  unfold dpop
  rw [List.filter_eq_self]
  intro kv hkv
  unfold dget at h
  rw [Option.map_eq_none'] at h
  rw [List.find?_eq_none] at h
  simpa using h kv hkv

lemma dset_of_dget_none (d : Doc) (k : String) (v : BVal) (h : dget d k = none) :
    dset d k v = d ++ [(k, v)] := by
  unfold dset
  unfold dget at h
  rw [Option.map_eq_none'] at h
  simp [h]

lemma dget_mapRep_self (d : Doc) (k : String) (v : BVal)
    (h : (d.find? (fun kv => kv.1 == k)).isSome) :
    dget (d.map (repKV k v)) k = some v := by
  induction d with
  | nil => simp at h
  | cons kv d ih =>
    obtain ⟨k1, w⟩ := kv
    by_cases h1 : k1 = k
    · subst h1
      simp [repKV, dget_cons]
    · have hb : (k1 == k) = false := by simpa using h1
      rw [List.find?_cons_of_neg d (by simp [h1])] at h
      have hrep : repKV k v (k1, w) = (k1, w) := by simp [repKV, hb]
      simp only [List.map_cons, hrep]
      rw [dget_cons]
      simp only [hb, Bool.false_eq_true, if_false]
      exact ih h

lemma dget_dset_self (d : Doc) (k : String) (v : BVal) :
    dget (dset d k v) k = some v := by
  unfold dset
  cases hs : d.find? (fun kv => kv.1 == k) with
  | some kv =>
    simp only [hs, Option.isSome_some, if_true]
    exact dget_mapRep_self d k v (by simp [hs])
  | none =>
    have hd : dget d k = none := by simp [dget, hs]
    simp [hs, dget_append, hd, dget_cons]

lemma dget_mapRep_ne (d : Doc) (k k2 : String) (v : BVal) (h : (k == k2) = false) :
    dget (d.map (repKV k v)) k2 = dget d k2 := by
  induction d with
  | nil => rfl
  | cons kv d ih =>
    obtain ⟨k1, w⟩ := kv
    by_cases h1 : k1 = k
    · subst h1
      have hrep : repKV k1 v (k1, w) = (k1, v) := by simp [repKV]
      simp only [List.map_cons, hrep]
      rw [dget_cons, dget_cons]
      simp only [h, Bool.false_eq_true, if_false, ih]
    · have hb : (k1 == k) = false := by simpa using h1
      have hrep : repKV k v (k1, w) = (k1, w) := by simp [repKV, hb]
      simp only [List.map_cons, hrep]
      rw [dget_cons, dget_cons, ih]

lemma dget_dset_ne (d : Doc) (k k2 : String) (v : BVal) (h : (k == k2) = false) :
    dget (dset d k v) k2 = dget d k2 := by
  unfold dset
  cases hs : d.find? (fun kv => kv.1 == k) with
  | some kv =>
    simp only [hs, Option.isSome_some, if_true]
    exact dget_mapRep_ne d k k2 v h
  | none =>
    simp only [hs, Option.isSome_none, Bool.false_eq_true, if_false]
    rw [dget_append]
    cases h2 : dget d k2 <;> simp [dget_cons, dget_nil, h, h2]


/-! ### Serialization, identifier and store lemmas -/


lemma convScalar_int (n : Int) : convScalar (.int n) = .int n := rfl

lemma convScalar_null : convScalar .null = .null := rfl

lemma serialize_doc_cons_oid (i : String) (rest : Doc)
    (hNoNative : dget rest "_id" = none) (hNoId : dget rest "id" = none) :
    serialize_doc (("_id", .scalar (.oid i)) :: rest)
      = (rest.map (fun kv => (kv.1, convertVal kv.2))) ++ [("id", .scalar (.str i))] := by
  have h1 : dget (("_id", BVal.scalar (BScalar.oid i)) :: rest) "_id"
      = some (.scalar (.oid i)) := by
    simp [dget_cons]
  have h2 : dpop (("_id", BVal.scalar (BScalar.oid i)) :: rest) "_id" = rest := by
    unfold dpop
    rw [List.filter_cons_of_neg (by simp)]
    exact dpop_of_dget_none rest "_id" hNoNative
  unfold serialize_doc
  simp only [List.isEmpty_cons, Bool.false_eq_true, if_false, h1]
  simp only [h2]
  rw [dset_of_dget_none rest "id" _ hNoId]
  rw [if_neg (by simp)]
  rw [List.map_append]
  simp [convertVal, convScalar, pyStrVal, pyStrScalar]

lemma mapconv_model_dump (w : WorkCreate) :
    w.model_dump.map (fun kv => (kv.1, convertVal kv.2)) = w.model_dump := by
  obtain ⟨t, d, y, l, c, g⟩ := w
  cases d <;> cases y <;> cases l <;> cases c <;> cases g <;>
    simp [WorkCreate.model_dump, optB, optIntB, galleryB, convertVal,
      convScalar_str, convScalar_int, convScalar_null, map_convScalar_str]

lemma serialize_insert (w : WorkCreate) (i : String) :
    serialize_doc (("_id", .scalar (.oid i)) :: w.model_dump)
      = w.model_dump ++ [("id", .scalar (.str i))] := by
  rw [serialize_doc_cons_oid i w.model_dump rfl rfl, mapconv_model_dump]

lemma isHexChar_hexDigit (m : Nat) (h : m < 16) : isHexChar (hexDigit m) = true := by
  interval_cases m <;> decide

lemma natToHexAux_length (k n : Nat) : (natToHexAux k n).length = k := by
  induction k generalizing n with
  | zero => rfl
  | succ k ih => simp [natToHexAux, ih]

lemma natToHexAux_all (k n : Nat) : (natToHexAux k n).all isHexChar = true := by
  induction k generalizing n with
  | zero => rfl
  | succ k ih =>
    simp only [natToHexAux, List.all_cons, ih, Bool.and_true]
    exact isHexChar_hexDigit _ (Nat.mod_lt _ (by norm_num))

theorem natToHex24_valid (n : Nat) : ObjectId.is_valid (natToHex24 n) = true := by
  unfold ObjectId.is_valid natToHex24
  simp [String.length, natToHexAux_length, natToHexAux_all]

/-- The next identifier the store will assign does not yet occur in the
collection (the store invariant: identifiers are assigned uniquely). -/
def FreshCreateId (s : Store) : Prop :=
  ∀ d ∈ s.work, dget d "_id" ≠ some (.scalar (.oid (natToHex24 s.counter)))

lemma find_one_insert (s : Store) (fields : Doc) (hfresh : FreshCreateId s) :
    find_one ⟨s.counter + 1,
        s.work ++ [("_id", .scalar (.oid (natToHex24 s.counter))) :: fields]⟩
      (natToHex24 s.counter)
      = some (("_id", .scalar (.oid (natToHex24 s.counter))) :: fields) := by
  unfold find_one
  rw [List.find?_append]
  have h1 : s.work.find?
      (fun d => dget d "_id" == some (.scalar (.oid (natToHex24 s.counter)))) = none := by
    rw [List.find?_eq_none]
    intro d hd
    simpa using hfresh d hd
  rw [h1]
  simp [dget_cons]

lemma create_work_eq (s : Store) (w : WorkCreate) (hfresh : FreshCreateId s) :
    create_work (some s) w =
      (.ok (w.model_dump ++ [("id", .scalar (.str (natToHex24 s.counter)))]),
       some ⟨s.counter + 1,
         s.work ++ [("_id", .scalar (.oid (natToHex24 s.counter))) :: w.model_dump]⟩) := by
  unfold create_work create_document
  simp only [find_one_insert s w.model_dump hfresh, serialize_insert]

lemma get_work_insert (s : Store) (fields : Doc) (hfresh : FreshCreateId s) :
    get_work (some ⟨s.counter + 1,
        s.work ++ [("_id", .scalar (.oid (natToHex24 s.counter))) :: fields]⟩)
      (natToHex24 s.counter)
      = ⟨.ok (serialize_doc (("_id", .scalar (.oid (natToHex24 s.counter))) :: fields)),
         true⟩ := by
  unfold get_work
  rw [natToHex24_valid]
  simp only [Bool.not_true, Bool.false_eq_true, if_false]
  rw [find_one_insert s fields hfresh]
  simp


/-! ### Claims: round-trip, malformed id, create semantics, 404, precedence -/


/-- A sample store (empty collection) used by the concrete instances. -/
def exStore : Store := ⟨0, []⟩

/-- A sample valid creation payload used by the concrete instances. -/
def exPayload : WorkCreate := ⟨"Glass Pavilion", none, some 2020, none, none, some []⟩

lemma exStore_fresh : FreshCreateId exStore := by
  intro d hd
  simp [exStore] at hd

/-- Claim C1: creating a work from a valid payload and then fetching by
the identifier returned at creation yields a document whose domain
fields equal the payload and whose id field equals that identifier. -/
theorem create_then_get_roundtrip (s : Store) (w : WorkCreate)
    (hfresh : FreshCreateId s) :
    ∃ d s2, create_work (some s) w = (.ok d, some s2) ∧
      dget d "id" = some (.scalar (.str (natToHex24 s.counter))) ∧
      dget d "title" = some (.scalar (.str w.title)) ∧
      dget d "description" = some (optB w.description) ∧
      dget d "year" = some (optIntB w.year) ∧
      dget d "location" = some (optB w.location) ∧
      dget d "cover_image" = some (optB w.cover_image) ∧
      dget d "gallery" = some (galleryB w.gallery) ∧
      (get_work (some s2) (natToHex24 s.counter)).response = .ok d := by
  refine ⟨_, _, create_work_eq s w hfresh, ?_, ?_, ?_, ?_, ?_, ?_, ?_, ?_⟩
  · rfl
  · rfl
  · rfl
  · rfl
  · rfl
  · rfl
  · rfl
  · rw [get_work_insert s w.model_dump hfresh, serialize_insert]

theorem create_then_get_roundtrip_witness :
    FreshCreateId exStore ∧
    (∃ d s2, create_work (some exStore) exPayload = (.ok d, some s2) ∧
      dget d "id" = some (.scalar (.str (natToHex24 exStore.counter))) ∧
      dget d "title" = some (.scalar (.str exPayload.title)) ∧
      dget d "description" = some (optB exPayload.description) ∧
      dget d "year" = some (optIntB exPayload.year) ∧
      dget d "location" = some (optB exPayload.location) ∧
      dget d "cover_image" = some (optB exPayload.cover_image) ∧
      dget d "gallery" = some (galleryB exPayload.gallery) ∧
      (get_work (some s2) (natToHex24 exStore.counter)).response = .ok d) :=
  ⟨exStore_fresh, create_then_get_roundtrip exStore exPayload exStore_fresh⟩

/-- Claim C2: with the store handle present, a request with an
identifier string that is not a valid ObjectId is rejected with 400 and
the store is never queried. -/
theorem malformed_id_400_no_query (s : Store) (work_id : String)
    (h : ObjectId.is_valid work_id = false) :
    get_work (some s) work_id = ⟨.error 400 "Invalid id", false⟩ := by
  simp [get_work, h]

theorem malformed_id_400_no_query_witness :
    ObjectId.is_valid "not-a-valid-id" = false ∧
    get_work (some exStore) "not-a-valid-id" = ⟨.error 400 "Invalid id", false⟩ :=
  ⟨by decide, malformed_id_400_no_query exStore "not-a-valid-id" (by decide)⟩

/-- Claim C5: the creation payload carries no identifier field, the
store assigns the identifier, and the response is the serialization of
the document re-fetched from the store under that identifier (with the
store-side _id reflected as id). -/
theorem create_refetches_serialized (s : Store) (w : WorkCreate)
    (hfresh : FreshCreateId s) :
    dget w.model_dump "id" = none ∧
    dget w.model_dump "_id" = none ∧
    (∃ d s2, create_work (some s) w = (.ok d, some s2) ∧
      find_one s2 (natToHex24 s.counter)
        = some (("_id", .scalar (.oid (natToHex24 s.counter))) :: w.model_dump) ∧
      d = serialize_doc (("_id", .scalar (.oid (natToHex24 s.counter))) :: w.model_dump) ∧
      dget d "id" = some (.scalar (.str (natToHex24 s.counter)))) := by
  refine ⟨rfl, rfl, _, _, create_work_eq s w hfresh,
    find_one_insert s w.model_dump hfresh, ?_, ?_⟩
  · exact (serialize_insert w (natToHex24 s.counter)).symm
  · rfl

theorem create_refetches_serialized_witness :
    FreshCreateId exStore ∧
    (dget exPayload.model_dump "id" = none ∧
     dget exPayload.model_dump "_id" = none ∧
     (∃ d s2, create_work (some exStore) exPayload = (.ok d, some s2) ∧
       find_one s2 (natToHex24 exStore.counter)
         = some (("_id", .scalar (.oid (natToHex24 exStore.counter))) :: exPayload.model_dump) ∧
       d = serialize_doc (("_id", .scalar (.oid (natToHex24 exStore.counter))) :: exPayload.model_dump) ∧
       dget d "id" = some (.scalar (.str (natToHex24 exStore.counter))))) :=
  ⟨exStore_fresh, create_refetches_serialized exStore exPayload exStore_fresh⟩

/-- Claim C6: with the store handle present and a well-formed
identifier, the endpoint answers 404 exactly when the store has no
matching document, and otherwise returns the single matching document
serialized. -/
theorem get_wellformed_404_or_doc (s : Store) (work_id : String)
    (hv : ObjectId.is_valid work_id = true) :
    (find_one s work_id = none →
       get_work (some s) work_id = ⟨.error 404 "Not found", true⟩) ∧
    (∀ d, find_one s work_id = some d →
       get_work (some s) work_id = ⟨.ok (serialize_doc d), true⟩) := by
  constructor
  · intro h0
    simp [get_work, hv, h0]
  · intro d hd
    have hne : d.isEmpty = false := by
      have hp := List.find?_some (by simpa [find_one] using hd)
      have hid : dget d "_id" = some (.scalar (.oid work_id)) := by simpa using hp
      cases d with
      | nil => simp [dget] at hid
      | cons kv t => rfl
    simp [get_work, hv, hd, hne]

theorem get_wellformed_404_or_doc_witness :
    ObjectId.is_valid "aaaaaaaaaaaaaaaaaaaaaaaa" = true ∧
    find_one exStore "aaaaaaaaaaaaaaaaaaaaaaaa" = none ∧
    get_work (some exStore) "aaaaaaaaaaaaaaaaaaaaaaaa" = ⟨.error 404 "Not found", true⟩ :=
  ⟨by decide, rfl,
   (get_wellformed_404_or_doc exStore "aaaaaaaaaaaaaaaaaaaaaaaa" (by decide)).1 rfl⟩

/-- Claim C10: the store-availability check runs before identifier
validation, so with the store handle absent every request, including one
with a malformed identifier, answers 500 rather than 400. -/
theorem db_check_before_format_check (work_id : String) :
    get_work none work_id = ⟨.error 500 "Database not available", false⟩ := rfl


/-! ### Claim: serialization strips native identifiers -/


/-- Whether a scalar value is a native ObjectId. -/
def scalarIsOid : BScalar → Bool
  | .oid _ => true
  | _ => false

/-- Whether a field value contains a native ObjectId, at top level or as
an array element. -/
def valHasOid : BVal → Bool
  | .scalar v => scalarIsOid v
  | .arr xs => xs.any scalarIsOid

/-- Whether any field of a document contains a native ObjectId. -/
def docHasOid (d : Doc) : Bool :=
  d.any (fun kv => valHasOid kv.2)

lemma scalarIsOid_conv (v : BScalar) : scalarIsOid (convScalar v) = false := by
  cases v <;> rfl

lemma valHasOid_conv (v : BVal) : valHasOid (convertVal v) = false := by
  cases v with
  | scalar w => simp [convertVal, valHasOid, scalarIsOid_conv]
  | arr xs => simp [convertVal, valHasOid, List.any_map, Function.comp, scalarIsOid_conv]

lemma docHasOid_mapConv (d : Doc) :
    docHasOid (d.map (fun kv => (kv.1, convertVal kv.2))) = false := by
  simp [docHasOid, List.any_map, Function.comp, valHasOid_conv]

/-- Claim C3: serializing a document with a native identifier removes
the _id field, re-exposes its canonical string under id, and leaves no
native identifier anywhere in the payload, arrays included. -/
theorem serialize_strips_native_ids (doc : Doc) (i : String)
    (h : dget doc "_id" = some (.scalar (.oid i))) :
    dget (serialize_doc doc) "_id" = none ∧
    dget (serialize_doc doc) "id" = some (.scalar (.str i)) ∧
    docHasOid (serialize_doc doc) = false := by
  have hne : doc.isEmpty = false := by
    cases doc with
    | nil => simp [dget] at h
    | cons kv t => rfl
  have hser : serialize_doc doc
      = (dset (dpop doc "_id") "id" (.scalar (.str i))).map
          (fun kv => (kv.1, convertVal kv.2)) := by
    unfold serialize_doc
    simp only [hne, Bool.false_eq_true, if_false, h]
    rw [if_neg (by simp)]
    simp [pyStrVal, pyStrScalar]
  refine ⟨?_, ?_, ?_⟩
  · rw [hser, dget_mapConv, dget_dset_ne _ _ _ _ (by decide), dget_dpop_self]
    rfl
  · rw [hser, dget_mapConv, dget_dset_self]
    rfl
  · rw [hser]
    exact docHasOid_mapConv _

theorem serialize_strips_native_ids_witness :
    dget [("_id", .scalar (.oid "0123456789abcdef01234567")),
          ("owner", .scalar (.oid "aaaabbbbccccddddeeeeffff")),
          ("refs", .arr [.oid "111122223333444455556666", .str "x"]),
          ("title", .scalar (.str "t"))] "_id"
        = some (.scalar (.oid "0123456789abcdef01234567")) ∧
    (dget (serialize_doc
        [("_id", .scalar (.oid "0123456789abcdef01234567")),
         ("owner", .scalar (.oid "aaaabbbbccccddddeeeeffff")),
         ("refs", .arr [.oid "111122223333444455556666", .str "x"]),
         ("title", .scalar (.str "t"))]) "_id" = none ∧
     dget (serialize_doc
        [("_id", .scalar (.oid "0123456789abcdef01234567")),
         ("owner", .scalar (.oid "aaaabbbbccccddddeeeeffff")),
         ("refs", .arr [.oid "111122223333444455556666", .str "x"]),
         ("title", .scalar (.str "t"))]) "id"
       = some (.scalar (.str "0123456789abcdef01234567")) ∧
     docHasOid (serialize_doc
        [("_id", .scalar (.oid "0123456789abcdef01234567")),
         ("owner", .scalar (.oid "aaaabbbbccccddddeeeeffff")),
         ("refs", .arr [.oid "111122223333444455556666", .str "x"]),
         ("title", .scalar (.str "t"))]) = false) :=
  ⟨rfl,
   serialize_strips_native_ids
     [("_id", .scalar (.oid "0123456789abcdef01234567")),
      ("owner", .scalar (.oid "aaaabbbbccccddddeeeeffff")),
      ("refs", .arr [.oid "111122223333444455556666", .str "x"]),
      ("title", .scalar (.str "t"))] "0123456789abcdef01234567" rfl⟩


/-! ### Claims: validation, list limit, health endpoint -/


/-- A creation request body with a title and the given year. -/
def bodyTY (n : Int) : Doc :=
  [("title", .scalar (.str "Glass Pavilion")), ("year", .scalar (.int n))]

/-- Claim C4: a year of 1899 or 2101 fails validation before the store
is touched, while 1900 and 2100 pass: the year field must lie in the
inclusive range 1900..2100. -/
theorem year_range_enforced (db : Option Store) (n : Int) :
    ((validateWorkCreate (bodyTY n)).isSome ↔ (1900 ≤ n ∧ n ≤ 2100)) ∧
    (¬(1900 ≤ n ∧ n ≤ 2100) →
      post_works db (bodyTY n) = (.error 422 "Validation Error", db)) := by
  have hv : validateWorkCreate (bodyTY n)
      = if 1900 ≤ n ∧ n ≤ 2100
        then some ⟨"Glass Pavilion", none, some n, none, none, some []⟩
        else none := by
    by_cases hc : 1900 ≤ n ∧ n ≤ 2100 <;>
      simp [validateWorkCreate, bodyTY, optStrField, dget, List.find?, hc]
  constructor
  · rw [hv]
    by_cases hc : 1900 ≤ n ∧ n ≤ 2100 <;> simp [hc]
  · intro hc
    unfold post_works
    rw [hv, if_neg hc]

theorem year_range_enforced_witness :
    ¬((1900 : Int) ≤ 2101 ∧ (2101 : Int) ≤ 2100) ∧
    post_works (some exStore) (bodyTY 2101) = (.error 422 "Validation Error", some exStore) :=
  ⟨by decide, (year_range_enforced (some exStore) 2101).2 (by decide)⟩

/-- Claim C7: the list endpoint returns at most the requested number of
documents, the requested number defaulting to 100 when the caller gives
none. -/
theorem list_never_exceeds_limit (db : Option Store) (limit : Option Int) :
    (∀ body, list_works db limit = .ok body →
       body.length ≤ (limit.getD 100).toNat) ∧
    list_works db none = list_works db (some 100) := by
  constructor
  · intro body h
    cases db with
    | none => simp [list_works] at h
    | some s =>
      simp only [list_works, ApiResult.ok.injEq] at h
      rw [← h]
      simp only [get_documents, List.length_map, List.length_take]
      exact Nat.min_le_left _ _
  · cases db <;> rfl

theorem list_never_exceeds_limit_witness :
    list_works (some exStore) none = .ok [] ∧
    ([] : List Doc).length ≤ ((none : Option Int).getD 100).toNat :=
  ⟨rfl, (list_never_exceeds_limit (some exStore) none).1 [] rfl⟩

/-- Claim C8: a creation request body without a title field fails
validation and is rejected before any store interaction; the store is
returned unchanged. -/
theorem missing_title_rejected (db : Option Store) (body : Doc)
    (h : dget body "title" = none) :
    post_works db body = (.error 422 "Validation Error", db) := by
  have hval : validateWorkCreate body = none := by
    unfold validateWorkCreate
    rw [h]
    rfl
  unfold post_works
  rw [hval]

theorem missing_title_rejected_witness :
    dget [("year", .scalar (.int 2000))] "title" = none ∧
    post_works (some exStore) [("year", .scalar (.int 2000))]
      = (.error 422 "Validation Error", some exStore) :=
  ⟨rfl, missing_title_rejected (some exStore) [("year", .scalar (.int 2000))] rfl⟩

/-- Claim C9: the health endpoint always answers successfully, reports
at most 10 collection names, and renders every probe failure as a
descriptive status string instead of an HTTP error. -/
theorem health_never_fails (env : HealthEnv) :
    ∃ r, test_database env = .ok r ∧ r.collections.length ≤ 10 ∧
      (match env.probeExc, env.db with
       | some e, _ => r.database = "❌ Error: " ++ e.take 50
       | none, none => r.database = "⚠️ Available but not initialized"
       | none, some p =>
         match p.listCollectionNames with
         | .ok _ => r.database = "✅ Connected & Working"
         | .error e => r.database = "⚠️ Connected but error: " ++ e.take 50) := by
  obtain ⟨pe, odb, url⟩ := env
  cases pe with
  | some e => exact ⟨_, rfl, by simp, rfl⟩
  | none =>
    cases odb with
    | none => exact ⟨_, rfl, by simp, rfl⟩
    | some p =>
      obtain ⟨nm, lc⟩ := p
      cases lc with
      | ok cs =>
        refine ⟨_, rfl, ?_, rfl⟩
        simp [test_database, List.length_take]
      | error e => exact ⟨_, rfl, by simp, rfl⟩


end Portfolio
